import Mathlib

/-!
# Verification of the content-scraper service

Shallow embedding of the travel-news scraper variants in this repository
(`src/server.js`, `src/unnamed/part_000`, `src/unnamed/part_001`) together
with a model of the article-content extractor described by the spec, and
proofs of the spec's claims about them.

The scraping endpoints parse fetched HTML with cheerio and then run plain
string/list logic over the selected elements.  The embedding keeps the DOM
query layer abstract: the list of elements a selector query returns (each
with its text and href attribute) is an input, and the per-element loop
bodies, filters, caps, deduplication and aggregation are translated
literally from the JavaScript.
-/

namespace ContentScraper

/-! ## String utilities modelling the JavaScript string operations used -/

/-- Whitespace characters recognised by the model (space, tab, newline, CR). -/
def isWs (c : Char) : Bool := c == ' ' || c == '\t' || c == '\n' || c == '\r'

/-- Drop leading whitespace characters. -/
def dropWsL : List Char → List Char
  | [] => []
  | c :: rest => if isWs c then dropWsL rest else c :: rest

/-- Model of JavaScript `s.trim()`: strip whitespace from both ends. -/
def trimStr (s : String) : String :=
  String.mk (dropWsL ((dropWsL s.data.reverse).reverse))

/-- Model of JavaScript `s.length` (all inputs considered are ASCII, so the
character count agrees with the UTF-16 code-unit count). -/
def strLen (s : String) : Nat := s.data.length

/-- Whether the first list is an initial segment of the second. -/
def leadsList : List Char → List Char → Bool
  | [], _ => true
  | _ :: _, [] => false
  | a :: as, b :: bs => a == b && leadsList as bs

/-- Whether `pat` occurs contiguously somewhere in the second list. -/
def occursIn (pat : List Char) : List Char → Bool
  | [] => leadsList pat []
  | c :: rest => leadsList pat (c :: rest) || occursIn pat rest

/-- Model of JavaScript `s.includes(pat)`. -/
def strIncludes (s pat : String) : Bool := occursIn pat.data s.data

/-- Model of JavaScript `s.toLowerCase()` (ASCII). -/
def lowerStr (s : String) : String := String.mk (s.data.map Char.toLower)

/-- Model of JavaScript `s.startsWith(p)`. -/
def startsWithStr (s p : String) : Bool := leadsList p.data s.data

/-! ## URL resolution

The scrapers fix root-relative hrefs with `new URL(link, source.url).href`.
The model extracts the scheme and the origin of the base URL and prepends
them; full RFC 3986 normalisation is not modelled, which is faithful for the
root-relative (`/...`) and protocol-relative (`//...`) hrefs the guard
admits. -/

/-- Characters of the host portion: everything up to the next `/`. -/
def hostChars : List Char → List Char
  | [] => []
  | c :: rest => if c == '/' then [] else c :: hostChars rest

/-- Characters of the origin `scheme://host` of a URL. -/
def originChars : List Char → List Char
  | [] => []
  | ':' :: '/' :: '/' :: rest => ':' :: '/' :: '/' :: hostChars rest
  | c :: rest => c :: originChars rest

/-- The origin `scheme://host` of a URL string. -/
def urlOrigin (base : String) : String := String.mk (originChars base.data)

/-- Characters of the scheme of a URL, including the colon. -/
def schemeChars : List Char → List Char
  | [] => []
  | c :: rest => if c == ':' then [':'] else c :: schemeChars rest

/-- The scheme of a URL string, including the colon. -/
def schemeOf (base : String) : String := String.mk (schemeChars base.data)

/-- Model of the scrapers' relative-URL fix:
`if (link.startsWith('/')) link = new URL(link, source.url).href`. -/
def fixLink (base link : String) : String :=
  if startsWithStr link "/" = true then
    if startsWithStr link "//" = true then schemeOf base ++ link
    else urlOrigin base ++ link
  else link

/-! ## Shared data model -/

/-- An article entry as produced by every scraper variant.  The
`scraped_at` wall-clock timestamp recorded by the JavaScript is not
modelled (real time is outside the embedding) and no claim mentions it. -/
structure Article where
  title : String
  url : String
  source : String
deriving DecidableEq

/-- One element matched by a cheerio selector query, abstracted to the data
the loop bodies read: its text content and its `href` attribute (the empty
string models a missing attribute, which is falsy in JavaScript exactly like
the empty string). -/
structure Candidate where
  text : String
  href : String
deriving DecidableEq

/-! ## `scrapeSource` from `src/unnamed/part_001` (lines 301-364)

The travel-keyword filter, navigation filter, http guard, per-selector
early exit at 2 articles, hard cap of 4 pushes and the final `slice(0, 3)`
are translated literally. -/

/-- The `travelKeywords` list of `scrapeSource`. -/
def travelKeywords : List String :=
  ["travel", "destination", "hotel", "trip", "vacation", "visit",
   "guide", "best", "places", "tips", "journey", "explore"]

/-- The navigation words checked by `scrapeSource` (`isNotNav`). -/
def navWords : List String :=
  ["home", "about", "contact", "search", "menu", "newsletter", "subscribe"]

/-- `isTravel`: some travel keyword occurs in the lowercased title or link. -/
def isTravelStr (title link : String) : Bool :=
  travelKeywords.any (fun k =>
    strIncludes (lowerStr title) k || strIncludes (lowerStr link) k)

/-- Negation of `isNotNav`: some navigation word occurs in the lowercased title. -/
def isNavStr (title : String) : Bool :=
  navWords.any (fun nav => strIncludes (lowerStr title) nav)

/-- The trimmed element text used as the entry title:
`const title = $elem.text().trim()`. -/
def candTitle (c : Candidate) : String := trimStr c.text

/-- Body of `scrapeSource`'s `$(selector).each` callback.  The callback's
`return false` once 4 articles are collected is modelled by the leading
no-op guard (after it fires the accumulator never changes again). -/
def pushCandidate (srcName base : String) (acc : List Article) (c : Candidate) :
    List Article :=
  if 4 ≤ acc.length then acc
  else if candTitle c ≠ "" ∧ c.href ≠ "" ∧
      10 < strLen (candTitle c) ∧ strLen (candTitle c) < 300 then
    if startsWithStr (fixLink base c.href) "http" = true ∧ isNavStr (candTitle c) = false ∧
        (isTravelStr (candTitle c) (fixLink base c.href) = true ∨ acc.length < 2) then
      acc ++ [{ title := candTitle c, url := fixLink base c.href, source := srcName }]
    else acc
  else acc

/-- Run one selector's `each` loop over its matched elements. -/
def runSelector (srcName base : String) : List Candidate → List Article → List Article
  | [], acc => acc
  | c :: rest, acc => runSelector srcName base rest (pushCandidate srcName base acc c)

/-- `scrapeSource`'s `for (const selector of source.selectors)` loop with its
`if (articles.length >= 2) break`. -/
def selectorLoop (srcName base : String) : List (List Candidate) → List Article → List Article
  | [], acc => acc
  | sel :: rest, acc =>
    let acc2 := runSelector srcName base sel acc
    if 2 ≤ acc2.length then acc2 else selectorLoop srcName base rest acc2

/-- `scrapeSource` (src/unnamed/part_001 lines 301-364): run the selector
cascade over the page and return `articles.slice(0, 3)`.  Each element of
`sels` is the list of elements the corresponding configured selector
matches on the fetched page. -/
def scrapeSource (srcName base : String) (sels : List (List Candidate)) : List Article :=
  (selectorLoop srcName base sels []).take 3

/-! ## `scrapeLatestTravelNews` from `src/server.js` (lines 58-153)

The MCP tool handler loops over its fixed sources; for each it fetches the
page, collects up to 8 matched elements, pushes the entries that pass the
title/link checks, and records a per-source result.  A fetch or parse error
is caught per source and recorded as a failed result.  The network fetch is
external, so each source's outcome (the element list the selector query
returns on the fetched page, or the thrown error message) is an input,
aligned with the source list. -/

/-- One element matched by `$('article, .card, .story, h2, h3')`, abstracted
to the data the two loop branches read: whether the element matched the
container selectors (`article, .card, .story`), the text of its first
heading/title descendant, the text of its first anchor, its own text, and
the relevant `href` (empty string models a missing attribute). -/
structure Elem1 where
  isContainer : Bool
  headingText : String
  linkText : String
  elemText : String
  href : String
deriving DecidableEq

/-- The title picked by the loop: heading text for containers, otherwise the
anchor text with the element's own text as the falsy fallback
(`$link.text().trim() || $element.text().trim()`). -/
def elem1Title (e : Elem1) : String :=
  if e.isContainer then trimStr e.headingText
  else if trimStr e.linkText ≠ "" then trimStr e.linkText else trimStr e.elemText

/-- Body of the `.each` callback of `scrapeLatestTravelNews`. -/
def pushElem1 (srcName base : String) (acc : List Article) (e : Elem1) : List Article :=
  if elem1Title e ≠ "" ∧ e.href ≠ "" ∧
      10 < strLen (elem1Title e) ∧ strLen (elem1Title e) < 200 then
    if startsWithStr (fixLink base e.href) "http" = true then
      acc ++ [{ title := elem1Title e, url := fixLink base e.href, source := srcName }]
    else acc
  else acc

/-- The per-source collection loop: `.slice(0, 8).each(...)`. -/
def collectArticles1 (srcName base : String) (elems : List Elem1) : List Article :=
  (elems.take 8).foldl (pushElem1 srcName base) []

/-- A configured source: display name and page URL. -/
structure Source where
  name : String
  url : String
deriving DecidableEq

/-- Outcome of fetching and querying one source's page: the matched elements,
or the message of the error thrown by the fetch/parse. -/
abbrev FetchOutcome := Except String (List Elem1)

/-- A per-source result record as pushed onto `results`. -/
structure SourceResult where
  source : String
  articles : List Article
  error : Option String
  success : Bool
deriving DecidableEq

/-- One iteration of the source loop of `scrapeLatestTravelNews`: the `try`
branch pushes the collected articles sliced to 5 with `success: true`; the
`catch` branch records the error message with `success: false`. -/
def processSource1 (s : Source) (o : FetchOutcome) : SourceResult :=
  match o with
  | Except.ok elems =>
      { source := s.name
        articles := (collectArticles1 s.name s.url elems).take 5
        error := none
        success := true }
  | Except.error msg =>
      { source := s.name, articles := [], error := some msg, success := false }

/-- `scrapeLatestTravelNews` (src/server.js lines 58-153), with the external
fetch outcomes passed alongside the sources they belong to. -/
def scrapeLatestTravelNews (sources : List Source) (outcomes : List FetchOutcome) :
    List SourceResult :=
  List.zipWith processSource1 sources outcomes

/-- The final aggregation of `scrapeLatestTravelNews` (lines 134-137):
`results.filter(r => r.success).flatMap(r => r.articles).slice(0, max_articles)`.
The `max_articles` argument defaults to 15 in this variant. -/
def allArticles1 (results : List SourceResult) (maxArticles : Nat := 15) : List Article :=
  ((results.filter (fun r => r.success)).flatMap (fun r => r.articles)).take maxArticles

/-! ## Freshness ranking from `src/server.js` (lines 344-349)

The `/execute/scrape_latest_travel_news` endpoint (and likewise the
`/scrape-latest-travel-news` endpoint of src/unnamed/part_000, lines
401-406) combines the successful per-source results and sorts them by
`(a, b) => b.freshness_score - a.freshness_score`, i.e. into non-increasing
freshness order, then slices to the top 20.  The JavaScript freshness scores
are the exact decimals 0.5, 0.6, 0.7, 0.9, 1.0; the model stores them scaled
by 10 as integers, which is order-faithful. -/

/-- An article entry of the freshness-ranking endpoints. -/
structure FreshArticle where
  title : String
  url : String
  source : String
  freshness_score : Nat
  position : Nat
deriving DecidableEq

/-- A per-source result of the freshness-ranking endpoints. -/
structure FreshResult where
  source : String
  articles : List FreshArticle
  success : Bool
deriving DecidableEq

/-- The sort order of `(a, b) => b.freshness_score - a.freshness_score`. -/
def freshGe (a b : FreshArticle) : Prop := b.freshness_score ≤ a.freshness_score

instance : DecidableRel freshGe := fun _ _ => Nat.decLe _ _

instance : IsTotal FreshArticle freshGe :=
  ⟨fun a b => Nat.le_total b.freshness_score a.freshness_score⟩

instance : IsTrans FreshArticle freshGe :=
  ⟨fun _ _ _ h1 h2 => le_trans h2 h1⟩

/-- `allArticles` of the freshness endpoints: filter the successful results,
flatten their article lists, sort by descending `freshness_score`, take the
top 20.  The sort models the outcome of the JavaScript array sort with the
numeric comparator: a permutation ordered by non-increasing freshness. -/
def rankByFreshness (results : List FreshResult) : List FreshArticle :=
  (List.insertionSort freshGe
    ((results.filter (fun r => r.success)).flatMap (fun r => r.articles))).take 20

/-! ## The Browserbase variant from `src/server.js` (lines 403-569)

Its per-source loop pushes up to 8 entries, admits an entry only if the link
starts with `http`, the title is not navigation-like and either a travel
keyword matches or fewer than 3 entries were collected so far, breaks out of
the selector loop at 3 entries, deduplicates by title keeping the first
occurrence (`filter((article, index, self) => index === self.findIndex(a =>
a.title === article.title))`), and slices to 6 per source; the endpoint then
aggregates `results.filter(r => r.success).flatMap(r => r.articles)
.slice(0, max_articles)` with `max_articles` defaulting to 20. -/

/-- The `travelKeywords` list of the Browserbase variant. -/
def travelKeywords3 : List String :=
  ["travel", "destination", "hotel", "trip", "vacation", "visit",
   "guide", "best", "places", "where", "tips"]

/-- The navigation words of the Browserbase variant. -/
def navWords3 : List String :=
  ["home", "about", "contact", "search", "menu", "newsletter", "subscribe", "sign in"]

/-- `isTravel` of the Browserbase variant. -/
def isTravel3 (title link : String) : Bool :=
  travelKeywords3.any (fun k =>
    strIncludes (lowerStr title) k || strIncludes (lowerStr link) k)

/-- `isNav` of the Browserbase variant. -/
def isNav3 (title : String) : Bool :=
  navWords3.any (fun nav => strIncludes (lowerStr title) nav)

/-- Body of the Browserbase variant's `$(selector).each` callback. -/
def pushCandidate3 (srcName base : String) (acc : List Article) (c : Candidate) :
    List Article :=
  if 8 ≤ acc.length then acc
  else if candTitle c ≠ "" ∧ c.href ≠ "" ∧
      15 < strLen (candTitle c) ∧ strLen (candTitle c) < 250 then
    if startsWithStr (fixLink base c.href) "http" = true ∧ isNav3 (candTitle c) = false ∧
        (isTravel3 (candTitle c) (fixLink base c.href) = true ∨ acc.length < 3) then
      acc ++ [{ title := candTitle c, url := fixLink base c.href, source := srcName }]
    else acc
  else acc

/-- One selector's `each` loop in the Browserbase variant. -/
def runSelector3 (srcName base : String) : List Candidate → List Article → List Article
  | [], acc => acc
  | c :: rest, acc => runSelector3 srcName base rest (pushCandidate3 srcName base acc c)

/-- The Browserbase variant's selector loop with its
`if (articles.length >= 3) break`. -/
def selectorLoop3 (srcName base : String) : List (List Candidate) → List Article → List Article
  | [], acc => acc
  | sel :: rest, acc =>
    let acc2 := runSelector3 srcName base sel acc
    if 3 ≤ acc2.length then acc2 else selectorLoop3 srcName base rest acc2

/-- Keep-first-occurrence deduplication by title, the meaning of
`articles.filter((article, index, self) => index === self.findIndex(a =>
a.title === article.title))`: an element is kept exactly when it is the
first element bearing its title.  `seen` accumulates the titles already
kept. -/
def dedupByTitle (seen : List String) : List Article → List Article
  | [] => []
  | a :: rest =>
    if seen.contains a.title then dedupByTitle seen rest
    else a :: dedupByTitle (a.title :: seen) rest

/-- Outcome of fetching and querying one source in the Browserbase variant:
per configured selector, the list of matched elements; or the thrown error
message. -/
abbrev FetchOutcome3 := Except String (List (List Candidate))

/-- One iteration of the Browserbase variant's source loop: collect,
deduplicate by title, slice to 6, record success; or record the caught
error. -/
def processSource3 (s : Source) (o : FetchOutcome3) : SourceResult :=
  match o with
  | Except.ok sels =>
      { source := s.name
        articles := (dedupByTitle [] (selectorLoop3 s.name s.url sels [])).take 6
        error := none
        success := true }
  | Except.error msg =>
      { source := s.name, articles := [], error := some msg, success := false }

/-- The Browserbase variant's source loop over its sources and their fetch
outcomes. -/
def scrapeBrowserbase (sources : List Source) (outcomes : List FetchOutcome3) :
    List SourceResult :=
  List.zipWith processSource3 sources outcomes

/-- The Browserbase endpoint's aggregated `latest_travel_news` list:
`results.filter(r => r.success).flatMap(r => r.articles).slice(0, max_articles)`
with `max_articles` defaulting to 20 in this variant. -/
def latestTravelNews3 (results : List SourceResult) (maxArticles : Nat := 20) : List Article :=
  ((results.filter (fun r => r.success)).flatMap (fun r => r.articles)).take maxArticles

/-! ## The Article Content Extractor

Modelled from the spec: the repository's full-article content extraction
variant (the spec's "Article Content Extractor", §2-§4: boilerplate
removal, strategy cascade, normalizer, title resolver, excerpt builder and
quality scorer) is not among the source files under `src/`; only its
spec is available.  The definitions below follow the spec's words.  The
extractor consumes a parsed document; DOM parsing and boilerplate removal
are element-tree operations kept abstract, so the parsed document is
abstracted to the data the pipeline reads: the candidate text each of the
five ordered strategies yields on the cleaned document, the remaining body
text used by the terminal fallback, and the four title sources. -/

/-- Modelled from the spec: the parsed, boilerplate-stripped document,
abstracted to the strings the extraction pipeline reads. -/
structure ParsedDoc where
  strategyTexts : List String
  bodyFallback : String
  headingText : String
  docTitle : String
  ogTitle : String
  metaTitle : String

/-- Modelled from the spec (§3): the record the extractor returns. -/
structure ExtractionResult where
  title : String
  fullContent : String
  excerpt : String
  wordCount : Nat
  qualityScore : Int
  success : Bool

/-- The count of whitespace-delimited non-empty tokens (spec §8's meaning of
`wordCount`).  The boolean argument tracks being inside a token. -/
def countWordsAux : List Char → Bool → Nat
  | [], _ => 0
  | c :: rest, inWord =>
    if isWs c then countWordsAux rest false
    else (if inWord then 0 else 1) + countWordsAux rest true

/-- `wordCount` of a string. -/
def countWords (s : String) : Nat := countWordsAux s.data false

/-! ### Strategy cascade (spec §4.2) -/

/-- Modelled from the spec: the cascade's "best so far" update, with the
contract `candidate.length > current.length && candidate.length > 300`. -/
def cascadeStep (best cand : String) : String :=
  if strLen best < strLen cand ∧ 300 < strLen cand then cand else best

/-- Run the cascade update over the remaining strategy outputs. -/
def cascadeGo : List String → String → String
  | [], best => best
  | t :: rest, best => cascadeGo rest (cascadeStep best t)

/-- Modelled from the spec: the strategy cascade over the ordered strategy
outputs, starting from the empty candidate. -/
def cascade (outputs : List String) : String := cascadeGo outputs ""

/-- Modelled from the spec: the chosen body text — the cascade winner if one
cleared 300 characters, otherwise the terminal fallback's remaining body
text, however short. -/
def chooseContent (d : ParsedDoc) : String :=
  let c := cascade d.strategyTexts
  if 300 < strLen c then c else d.bodyFallback

/-! ### Normalizer (spec §4.3) -/

/-- Whitespace that is not a newline. -/
def isSpaceNotNl (c : Char) : Bool := c == ' ' || c == '\t' || c == '\r'

/-- Collapse runs of non-newline whitespace to a single space. -/
def collapseSpaces : List Char → List Char
  | [] => []
  | c :: rest =>
    let r := collapseSpaces rest
    if isSpaceNotNl c then
      match r with
      | ' ' :: _ => r
      | _ => ' ' :: r
    else c :: r

/-- Collapse runs of 3 or more newlines to exactly 2. -/
def collapseNewlines : List Char → List Char
  | [] => []
  | c :: rest =>
    let r := collapseNewlines rest
    if c == '\n' then
      match r with
      | '\n' :: '\n' :: _ => r
      | _ => '\n' :: r
    else c :: r

/-- Convert tab characters to single spaces. -/
def tabsToSpaces (cs : List Char) : List Char :=
  cs.map (fun c => if c == '\t' then ' ' else c)

/-- Strip non-printable/control characters (newlines, being meaningful
paragraph separators preserved by the previous step, are kept). -/
def stripControl (cs : List Char) : List Char :=
  cs.filter (fun c => !(c.toNat < 32 && !(c == '\n')))

/-- Modelled from the spec: the normalizer's fixed order — collapse
non-newline whitespace runs, collapse 3+ newlines to 2, tabs to spaces,
strip control characters, trim. -/
def normalizeText (s : String) : String :=
  trimStr (String.mk (stripControl (tabsToSpaces (collapseNewlines (collapseSpaces s.data)))))

/-! ### Title resolver (spec §4.4) -/

/-- First candidate whose trimmed text is non-empty. -/
def firstNonempty : List String → String
  | [] => ""
  | t :: rest => if trimStr t ≠ "" then trimStr t else firstNonempty rest

/-- The site-name suffix separators: pipe, hyphen, em/en-dash. -/
def isTitleSep (c : Char) : Bool := c == '|' || c == '-' || c == '—' || c == '–'

/-- Truncate at the first suffix separator. -/
def truncAtSep : List Char → List Char
  | [] => []
  | c :: rest => if isTitleSep c then [] else c :: truncAtSep rest

/-- Modelled from the spec: try heading text, document title, `og:title`,
then a `title` meta value; truncate the winner at the first separator and
trim. -/
def resolveTitle (d : ParsedDoc) : String :=
  trimStr (String.mk (truncAtSep
    (firstNonempty [d.headingText, d.docTitle, d.ogTitle, d.metaTitle]).data))

/-! ### Excerpt builder (spec §4.5) and quality scorer (spec §4.6) -/

/-- Split at sentence-terminal punctuation. -/
def splitTerminal : List Char → List (List Char)
  | [] => [[]]
  | c :: rest =>
    if c == '.' || c == '!' || c == '?' then [] :: splitTerminal rest
    else
      match splitTerminal rest with
      | [] => [[c]]
      | f :: fs => (c :: f) :: fs

/-- The fragments of a terminal-punctuation split. -/
def sentenceFragments (s : String) : List String :=
  (splitTerminal s.data).map String.mk

/-- Modelled from the spec: the excerpt — join the first two fragments longer
than 20 characters with a period separator, falling back to the first 300
characters; hard-truncate to 300 characters with an ellipsis marker. -/
def excerptOf (content : String) : String :=
  let frags := (sentenceFragments content).filter (fun f => 20 < strLen f)
  let baseText :=
    match frags with
    | [] => String.mk (content.data.take 300)
    | [f] => f ++ "."
    | f1 :: f2 :: _ => f1 ++ ". " ++ f2 ++ "."
  if 300 < strLen baseText then String.mk (baseText.data.take 300) ++ "…" else baseText

/-- Modelled from the spec: the fixed travel-keyword list of the quality
scorer, drawn from the travel keywords recurring across the repository's
variants. -/
def scoreKeywords : List String :=
  ["travel", "destination", "hotel", "flight", "tourism", "vacation",
   "trip", "airline", "cruise", "resort"]

/-- Modelled from the spec: the negative indicators
(cookie/JS-disabled/subscribe-type phrases); §8 requires "please enable
cookies" to be among them. -/
def negativeIndicators : List String :=
  ["please enable cookies", "javascript is disabled", "enable javascript",
   "subscribe to continue"]

/-- Modelled from the spec: the disqualifying phrases of the `success` gate
(§3); the same phrase set as the scorer's negative indicators. -/
def disqualifyingPhrases : List String := negativeIndicators

/-- The length band of the quality score. -/
def lengthBand (n : Nat) : Nat :=
  if 1000 < n then 30 else if 500 < n then 20 else if 200 < n then 10 else 0

/-- The word-count band of the quality score. -/
def wordBand (n : Nat) : Nat :=
  if 300 < n then 25 else if 150 < n then 15 else if 75 < n then 10 else 0

/-- The structure band of the quality score. -/
def structBand (n : Nat) : Nat :=
  if 10 < n then 15 else if 5 < n then 10 else 0

/-- Sentence count by terminal-punctuation split: the non-empty fragments. -/
def sentenceCount (s : String) : Nat :=
  ((sentenceFragments s).filter (fun f => f ≠ "")).length

/-- The number of matched domain keywords. -/
def keywordHits (s : String) : Nat :=
  (scoreKeywords.filter (fun k => strIncludes (lowerStr s) k)).length

/-- The number of matched negative indicators. -/
def negativeHits (s : String) : Nat :=
  (negativeIndicators.filter (fun p => strIncludes (lowerStr s) p)).length

/-- The final clamp of the quality score to [0, 100]. -/
def clampScore (n : Int) : Int := max 0 (min 100 n)

/-- Modelled from the spec: the additive quality score — length band plus
word-count band plus structure band plus title bonus plus 5 per matched
keyword minus 10 per matched negative indicator — clamped to [0, 100]. -/
def qualityScore (title content : String) : Int :=
  clampScore ((lengthBand (strLen content) : Int) + wordBand (countWords content)
    + structBand (sentenceCount content)
    + (if 10 < strLen title then (10 : Int) else 0)
    + 5 * keywordHits content - 10 * negativeHits content)

/-- Whether a disqualifying phrase occurs in the content. -/
def hasDisqualifying (content : String) : Bool :=
  disqualifyingPhrases.any (fun p => strIncludes (lowerStr content) p)

/-- Modelled from the spec: the `success` gate (§3) — content longer than
500 characters, more than 100 words, and no disqualifying phrase. -/
def successGate (content : String) : Bool :=
  decide (500 < strLen content) && decide (100 < countWords content)
    && !(hasDisqualifying content)

/-- Modelled from the spec: the whole extraction pipeline — choose the body
text through the cascade (or terminal fallback), normalize it, and derive
title, excerpt, word count, quality score and the success flag. -/
def extractArticleContent (d : ParsedDoc) : ExtractionResult :=
  let content := normalizeText (chooseContent d)
  let title := resolveTitle d
  { title := title
    fullContent := content
    excerpt := excerptOf content
    wordCount := countWords content
    qualityScore := qualityScore title content
    success := successGate content }

/-! ## Concrete inputs used by witnesses and counterexamples -/

/-- 101 copies of the token `words` separated by single spaces (606
characters, 101 words): a body long enough to pass the cascade threshold
and the success gate. -/
def sampleWords : String :=
  String.mk ((List.replicate 101 ['w', 'o', 'r', 'd', 's', ' ']).flatten)

/-- A parsed document whose single strategy output passes the gate. -/
def sampleDoc : ParsedDoc :=
  { strategyTexts := [sampleWords]
    bodyFallback := ""
    headingText := "Sample heading text"
    docTitle := ""
    ogTitle := ""
    metaTitle := "" }

/-- A parsed document with no extractable text at all. -/
def emptyDoc : ParsedDoc :=
  { strategyTexts := [], bodyFallback := ""
    headingText := "", docTitle := "", ogTitle := "", metaTitle := "" }

/-- A 400-character strategy output. -/
def longText400 : String := String.mk (List.replicate 400 'x')

/-- A 900-character strategy output. -/
def longText900 : String := String.mk (List.replicate 900 'y')

/-- A parsed document all of whose strategy outputs miss the threshold. -/
def c5Doc : ParsedDoc :=
  { strategyTexts := ["short text"]
    bodyFallback := "Tiny body."
    headingText := "Head"
    docTitle := ""
    ogTitle := ""
    metaTitle := "" }

/-- Two of the fixed sources of `scrapeLatestTravelNews`. -/
def c4Sources : List Source :=
  [{ name := "Travel + Leisure", url := "https://www.travelandleisure.com/" },
   { name := "CNN Travel", url := "https://www.cnn.com/travel" }]

/-- Fetch outcomes where the second source's request throws. -/
def c4Outcomes : List FetchOutcome :=
  [Except.ok [], Except.error "timeout of 8000ms exceeded"]

/-- The same fetch outcomes with the second source succeeding instead. -/
def c4OutcomesOk : List FetchOutcome := [Except.ok [], Except.ok []]

/-- A single-selector page with two keyword-free headlines followed by a
travel headline. -/
def c6Sels : List (List Candidate) :=
  [[{ text := "Zzz qqq www headline", href := "https://one.example/a" },
    { text := "Yyy rrr qqq headline", href := "https://one.example/b" },
    { text := "Best travel tips here", href := "https://one.example/c" }]]

/-- Two sources for the Browserbase variant. -/
def c8Sources : List Source :=
  [{ name := "S1", url := "https://one.example/" },
   { name := "S2", url := "https://two.example/" }]

/-- Fetch outcomes where both sources carry an identically titled story. -/
def c8Outcomes : List FetchOutcome3 :=
  [Except.ok [[{ text := "Best travel tips here", href := "https://one.example/a" }]],
   Except.ok [[{ text := "Best travel tips here", href := "https://two.example/b" }]]]

/-- A single-selector page with one root-relative travel link. -/
def c10Sels : List (List Candidate) :=
  [[{ text := " Best travel tips here ", href := "/deals/trip" }]]

/-- The third article collected from `c6Sels`. -/
def c6Article : Article :=
  { title := "Best travel tips here", url := "https://one.example/c", source := "S" }

/-- The article the first source of `c8Sources` yields. -/
def c8Article : Article :=
  { title := "Best travel tips here", url := "https://one.example/a", source := "S1" }

/-- The per-source result the first source of `c8Sources` yields. -/
def c8Result : SourceResult :=
  { source := "S1", articles := [c8Article], error := none, success := true }

/-- The per-source result the first source of `c4Sources` yields on an
empty page. -/
def c9Result : SourceResult :=
  { source := "Travel + Leisure", articles := [], error := none, success := true }

/-- The article collected from `c10Sels`. -/
def c10Article : Article :=
  { title := "Best travel tips here", url := "https://one.example/deals/trip",
    source := "S" }

/-! ## Helper lemmas -/

theorem strLen_empty : strLen "" = 0 := rfl

theorem clampScore_nonneg (n : Int) : 0 ≤ clampScore n := le_max_left 0 _

theorem clampScore_le (n : Int) : clampScore n ≤ 100 :=
  max_le (by norm_num) (min_le_left 100 n)

theorem exists_of_mem_zipWith {α β γ : Type} {f : α → β → γ} :
    ∀ {l : List α} {l' : List β} {c : γ}, c ∈ List.zipWith f l l' →
      ∃ a b, a ∈ l ∧ b ∈ l' ∧ c = f a b := by
  intro l
  induction l with
  | nil => intro l' c h; simp at h
  | cons a as ih =>
    intro l' c h
    cases l' with
    | nil => simp at h
    | cons b bs =>
      rw [List.zipWith_cons_cons] at h
      rcases List.mem_cons.mp h with h | h
      · exact ⟨a, b, List.mem_cons_self a as, List.mem_cons_self b bs, h⟩
      · obtain ⟨a', b', ha', hb', rfl⟩ := ih h
        exact ⟨a', b', List.mem_cons_of_mem _ ha', List.mem_cons_of_mem _ hb', rfl⟩

theorem getElem?_zipWith {α β γ : Type} (f : α → β → γ) :
    ∀ (l : List α) (l' : List β) (k : Nat),
      (List.zipWith f l l')[k]? =
        l[k]?.bind fun a => (l'[k]?).map fun b => f a b := by
  intro l
  induction l with
  | nil => intro l' k; simp
  | cons a as ih =>
    intro l' k
    cases l' with
    | nil => simp
    | cons b bs =>
      cases k with
      | zero => simp
      | succ k => simpa using ih bs k

theorem cascadeGo_mem (l : List String) :
    ∀ best, cascadeGo l best = best ∨ cascadeGo l best ∈ l := by
  induction l with
  | nil => intro best; exact Or.inl rfl
  | cons t rest ih =>
    intro best
    rcases ih (cascadeStep best t) with h | h
    · simp only [cascadeGo]
      by_cases hc : strLen best < strLen t ∧ 300 < strLen t
      · right
        rw [h]
        unfold cascadeStep
        rw [if_pos hc]
        exact List.mem_cons_self t rest
      · left
        rw [h]
        unfold cascadeStep
        rw [if_neg hc]
    · right
      simp only [cascadeGo]
      exact List.mem_cons_of_mem t h

theorem strLen_cascadeStep_ge (best t : String) :
    strLen best ≤ strLen (cascadeStep best t) := by
  unfold cascadeStep
  by_cases hc : strLen best < strLen t ∧ 300 < strLen t
  · rw [if_pos hc]; exact Nat.le_of_lt hc.1
  · rw [if_neg hc]

theorem cascadeGo_ge_best (l : List String) :
    ∀ best, strLen best ≤ strLen (cascadeGo l best) := by
  induction l with
  | nil => intro best; exact Nat.le_refl _
  | cons t rest ih =>
    intro best
    calc strLen best ≤ strLen (cascadeStep best t) := strLen_cascadeStep_ge best t
    _ ≤ strLen (cascadeGo rest (cascadeStep best t)) := ih _
    _ = strLen (cascadeGo (t :: rest) best) := rfl

theorem cascadeGo_ge_mem (l : List String) :
    ∀ best t, t ∈ l → 300 < strLen t → strLen t ≤ strLen (cascadeGo l best) := by
  induction l with
  | nil => intro best t ht; exact absurd ht (List.not_mem_nil t)
  | cons u rest ih =>
    intro best t ht h300
    rcases List.mem_cons.mp ht with rfl | ht'
    · have hstep : strLen t ≤ strLen (cascadeStep best t) := by
        unfold cascadeStep
        by_cases hlt : strLen best < strLen t
        · rw [if_pos ⟨hlt, h300⟩]
        · have : ¬ (strLen best < strLen t ∧ 300 < strLen t) := fun hc => hlt hc.1
          rw [if_neg this]
          exact Nat.le_of_not_lt hlt
      calc strLen t ≤ strLen (cascadeStep best t) := hstep
      _ ≤ strLen (cascadeGo rest (cascadeStep best t)) := cascadeGo_ge_best rest _
      _ = strLen (cascadeGo (t :: rest) best) := rfl
    · exact ih (cascadeStep best u) t ht' h300

theorem cascadeGo_big (l : List String) :
    ∀ best, (best = "" ∨ 300 < strLen best) →
      (cascadeGo l best = "" ∨ 300 < strLen (cascadeGo l best)) := by
  induction l with
  | nil => intro best h; exact h
  | cons t rest ih =>
    intro best h
    apply ih
    unfold cascadeStep
    by_cases hc : strLen best < strLen t ∧ 300 < strLen t
    · rw [if_pos hc]; exact Or.inr hc.2
    · rw [if_neg hc]; exact h

theorem mem_pushCandidate {srcName base : String} {acc : List Article} {c : Candidate}
    {a : Article} (h : a ∈ pushCandidate srcName base acc c) :
    a ∈ acc ∨ (a.title = trimStr c.text ∧ a.url = fixLink base c.href
      ∧ startsWithStr a.url "http" = true) := by
  unfold pushCandidate at h
  split at h
  · exact Or.inl h
  split at h
  · split at h
    · rename_i hguard
      rcases List.mem_append.mp h with h' | h'
      · exact Or.inl h'
      · have ha : a = { title := candTitle c, url := fixLink base c.href, source := srcName } :=
          List.mem_singleton.mp h'
        subst ha
        exact Or.inr ⟨rfl, rfl, hguard.1⟩
    · exact Or.inl h
  · exact Or.inl h

theorem mem_runSelector {srcName base : String} {a : Article} :
    ∀ (cands : List Candidate) (acc : List Article),
      a ∈ runSelector srcName base cands acc →
      a ∈ acc ∨ ∃ c ∈ cands, a.title = trimStr c.text ∧ a.url = fixLink base c.href
        ∧ startsWithStr a.url "http" = true := by
  intro cands
  induction cands with
  | nil => intro acc h; exact Or.inl h
  | cons c rest ih =>
    intro acc h
    rcases ih (pushCandidate srcName base acc c) h with h' | ⟨c', hc', hp⟩
    · rcases mem_pushCandidate h' with h'' | hp
      · exact Or.inl h''
      · exact Or.inr ⟨c, List.mem_cons_self c rest, hp⟩
    · exact Or.inr ⟨c', List.mem_cons_of_mem c hc', hp⟩

theorem mem_selectorLoop {srcName base : String} {a : Article} :
    ∀ (sels : List (List Candidate)) (acc : List Article),
      a ∈ selectorLoop srcName base sels acc →
      a ∈ acc ∨ ∃ sel ∈ sels, ∃ c ∈ sel, a.title = trimStr c.text
        ∧ a.url = fixLink base c.href ∧ startsWithStr a.url "http" = true := by
  intro sels
  induction sels with
  | nil => intro acc h; exact Or.inl h
  | cons sel rest ih =>
    intro acc h
    simp only [selectorLoop] at h
    split at h
    · rcases mem_runSelector sel acc h with h' | ⟨c, hc, hp⟩
      · exact Or.inl h'
      · exact Or.inr ⟨sel, List.mem_cons_self sel rest, c, hc, hp⟩
    · rcases ih (runSelector srcName base sel acc) h with h' | ⟨sel', hsel', hp⟩
      · rcases mem_runSelector sel acc h' with h'' | ⟨c, hc, hp⟩
        · exact Or.inl h''
        · exact Or.inr ⟨sel, List.mem_cons_self sel rest, c, hc, hp⟩
      · exact Or.inr ⟨sel', List.mem_cons_of_mem sel hsel', hp⟩

theorem pushCandidate_drop2 {srcName base : String} {acc : List Article} {c : Candidate}
    (hacc : ∀ x ∈ acc.drop 2, isTravelStr x.title x.url = true) :
    ∀ x ∈ (pushCandidate srcName base acc c).drop 2, isTravelStr x.title x.url = true := by
  intro x hx
  unfold pushCandidate at hx
  split at hx
  · exact hacc x hx
  split at hx
  · split at hx
    · rename_i hguard
      rw [List.drop_append_eq_append_drop] at hx
      rcases List.mem_append.mp hx with h | h
      · exact hacc x h
      · rcases hguard.2.2 with htravel | hlen
        · have hx' : x = { title := candTitle c, url := fixLink base c.href, source := srcName } :=
            List.mem_singleton.mp (List.mem_of_mem_drop h)
          subst hx'
          exact htravel
        · have hnil : ∀ y : Article, ([y]).drop (2 - acc.length) = ([] : List Article) := by
            intro y
            apply List.drop_eq_nil_of_le
            simp only [List.length_singleton]
            omega
          rw [hnil] at h
          exact absurd h (List.not_mem_nil x)
    · exact hacc x hx
  · exact hacc x hx

theorem runSelector_drop2 {srcName base : String} :
    ∀ (cands : List Candidate) (acc : List Article),
      (∀ x ∈ acc.drop 2, isTravelStr x.title x.url = true) →
      ∀ x ∈ (runSelector srcName base cands acc).drop 2, isTravelStr x.title x.url = true := by
  intro cands
  induction cands with
  | nil => intro acc hacc; exact hacc
  | cons c rest ih =>
    intro acc hacc
    exact ih (pushCandidate srcName base acc c) (pushCandidate_drop2 hacc)

theorem selectorLoop_drop2 {srcName base : String} :
    ∀ (sels : List (List Candidate)) (acc : List Article),
      (∀ x ∈ acc.drop 2, isTravelStr x.title x.url = true) →
      ∀ x ∈ (selectorLoop srcName base sels acc).drop 2, isTravelStr x.title x.url = true := by
  intro sels
  induction sels with
  | nil => intro acc hacc; exact hacc
  | cons sel rest ih =>
    intro acc hacc
    simp only [selectorLoop]
    split
    · exact runSelector_drop2 sel acc hacc
    · exact ih (runSelector srcName base sel acc) (runSelector_drop2 sel acc hacc)

theorem dedup_not_seen : ∀ (l : List Article) (seen : List String) (a : Article),
    a ∈ dedupByTitle seen l → seen.contains a.title = false := by
  intro l
  induction l with
  | nil => intro seen a h; exact absurd h (List.not_mem_nil a)
  | cons x rest ih =>
    intro seen a h
    simp only [dedupByTitle] at h
    split at h
    · exact ih seen a h
    · rename_i hseen
      rcases List.mem_cons.mp h with rfl | h'
      · exact Bool.eq_false_iff.mpr hseen
      · have h2 := ih (x.title :: seen) a h'
        simp only [List.contains_cons, Bool.or_eq_false_iff] at h2
        exact h2.2

theorem dedup_pairwise : ∀ (l : List Article) (seen : List String),
    List.Pairwise (fun a b => a.title ≠ b.title) (dedupByTitle seen l) := by
  intro l
  induction l with
  | nil => intro seen; exact List.Pairwise.nil
  | cons x rest ih =>
    intro seen
    simp only [dedupByTitle]
    split
    · exact ih seen
    · refine List.Pairwise.cons ?_ (ih (x.title :: seen))
      intro b hb
      have h2 := dedup_not_seen rest (x.title :: seen) b hb
      simp only [List.contains_cons, Bool.or_eq_false_iff] at h2
      intro hEq
      rw [hEq] at h2
      simp at h2

set_option maxRecDepth 8000
set_option maxHeartbeats 2000000

/-! ## The claims -/

/-- C1: the result record's `success` field is true only if
`fullContent.length > 500` and `wordCount > 100` and no disqualifying
phrase is present in the content; in particular, whenever `fullContent` is
the empty string, `success` is false. -/
theorem extract_success_gate (d : ParsedDoc) :
    ((extractArticleContent d).success = true →
      500 < strLen (extractArticleContent d).fullContent
      ∧ 100 < (extractArticleContent d).wordCount
      ∧ hasDisqualifying (extractArticleContent d).fullContent = false)
    ∧ ((extractArticleContent d).fullContent = "" →
      (extractArticleContent d).success = false) := by
  constructor
  · intro h
    have h' : successGate (normalizeText (chooseContent d)) = true := h
    simp only [successGate, Bool.and_eq_true, decide_eq_true_eq,
      Bool.not_eq_true'] at h'
    exact ⟨h'.1.1, h'.1.2, h'.2⟩
  · intro h
    have h0 : normalizeText (chooseContent d) = "" := h
    show successGate (normalizeText (chooseContent d)) = false
    rw [h0]
    decide

/-- Witness for C1: a document passing the gate, and one with empty
content failing it. -/
theorem extract_success_gate_witness :
    ((extractArticleContent sampleDoc).success = true
      ∧ (500 < strLen (extractArticleContent sampleDoc).fullContent
        ∧ 100 < (extractArticleContent sampleDoc).wordCount
        ∧ hasDisqualifying (extractArticleContent sampleDoc).fullContent = false))
    ∧ ((extractArticleContent emptyDoc).fullContent = ""
      ∧ (extractArticleContent emptyDoc).success = false) :=
  ⟨⟨by decide, (extract_success_gate sampleDoc).1 (by decide)⟩,
   ⟨by decide, (extract_success_gate emptyDoc).2 (by decide)⟩⟩

/-- C2: for every input, the returned `qualityScore` is an integer in
[0, 100]: the additive score is clamped to that range before it is
returned. -/
theorem qualityScore_mem_range (d : ParsedDoc) :
    0 ≤ (extractArticleContent d).qualityScore
    ∧ (extractArticleContent d).qualityScore ≤ 100 :=
  ⟨clampScore_nonneg _, clampScore_le _⟩

/-- C3: the strategy cascade's selection is longest-above-threshold, not
first-match: the update replaces the current best exactly when
`candidate.length > current.length` and `candidate.length > 300`; the
chosen candidate is one of maximal length among those exceeding 300; and
for outputs of lengths 400 and 900 the 900-length one wins in either
order. -/
theorem cascade_longest_selection (best cand : String) (outputs : List String)
    (a b : String) (ha : strLen a = 400) (hb : strLen b = 900) :
    (strLen best < strLen cand ∧ 300 < strLen cand → cascadeStep best cand = cand)
    ∧ (¬ (strLen best < strLen cand ∧ 300 < strLen cand) → cascadeStep best cand = best)
    ∧ (cascade outputs ≠ "" →
        cascade outputs ∈ outputs ∧ 300 < strLen (cascade outputs)
        ∧ ∀ t ∈ outputs, 300 < strLen t → strLen t ≤ strLen (cascade outputs))
    ∧ cascade [a, b] = b ∧ cascade [b, a] = b := by
  have h0a : cascadeStep "" a = a := by
    have hcond : strLen "" < strLen a ∧ 300 < strLen a := by rw [strLen_empty, ha]; omega
    unfold cascadeStep; exact if_pos hcond
  have h0b : cascadeStep "" b = b := by
    have hcond : strLen "" < strLen b ∧ 300 < strLen b := by rw [strLen_empty, hb]; omega
    unfold cascadeStep; exact if_pos hcond
  have hab : cascadeStep a b = b := by
    have hcond : strLen a < strLen b ∧ 300 < strLen b := by rw [ha, hb]; omega
    unfold cascadeStep; exact if_pos hcond
  have hba : cascadeStep b a = b := by
    have hcond : ¬ (strLen b < strLen a ∧ 300 < strLen a) := by rw [ha, hb]; omega
    unfold cascadeStep; exact if_neg hcond
  refine ⟨?_, ?_, ?_, ?_, ?_⟩
  · intro h; unfold cascadeStep; exact if_pos h
  · intro h; unfold cascadeStep; exact if_neg h
  · intro hne
    have hmem : cascade outputs ∈ outputs := by
      rcases cascadeGo_mem outputs "" with h | h
      · exact absurd h hne
      · exact h
    have hbig : 300 < strLen (cascade outputs) := by
      rcases cascadeGo_big outputs "" (Or.inl rfl) with h | h
      · exact absurd h hne
      · exact h
    exact ⟨hmem, hbig, fun t ht h300 => cascadeGo_ge_mem outputs "" t ht h300⟩
  · show cascadeGo [a, b] "" = b
    simp only [cascadeGo]
    rw [h0a, hab]
  · show cascadeGo [b, a] "" = b
    simp only [cascadeGo]
    rw [h0b, hba]

/-- Witness for C3: concrete 400- and 900-character outputs. -/
theorem cascade_longest_selection_witness :
    strLen longText400 = 400 ∧ strLen longText900 = 900
    ∧ cascade [longText400, longText900] = longText900
    ∧ cascade [longText900, longText400] = longText900 := by
  have h4 : strLen longText400 = 400 := by
    simp [longText400, strLen]
  have h9 : strLen longText900 = 900 := by
    simp [longText900, strLen]
  exact ⟨h4, h9, (cascade_longest_selection "" "" [] _ _ h4 h9).2.2.2.1,
    (cascade_longest_selection "" "" [] _ _ h4 h9).2.2.2.2⟩

/-- C4: failures are isolated per source — an erring source contributes a
`success = false` result carrying the error message, every source is still
processed, and any position whose fetch outcome is unchanged yields an
identical per-source result. -/
theorem scrape_isolates_failures (sources : List Source)
    (outcomes outcomes' : List FetchOutcome) (i j : Nat) (msg : String)
    (hlen : outcomes.length = sources.length)
    (hi : i < sources.length)
    (herr : outcomes[i]? = some (Except.error msg))
    (hagree : outcomes[j]? = outcomes'[j]?) :
    (scrapeLatestTravelNews sources outcomes).length = sources.length
    ∧ (scrapeLatestTravelNews sources outcomes)[i]? =
        some
          { source := (sources.get ⟨i, hi⟩).name, articles := [],
            error := some msg, success := false }
    ∧ (scrapeLatestTravelNews sources outcomes)[j]? =
        (scrapeLatestTravelNews sources outcomes')[j]? := by
  refine ⟨?_, ?_, ?_⟩
  · simp [scrapeLatestTravelNews, hlen]
  · unfold scrapeLatestTravelNews
    rw [getElem?_zipWith, herr, List.getElem?_eq_getElem hi]
    rfl
  · unfold scrapeLatestTravelNews
    rw [getElem?_zipWith, getElem?_zipWith, hagree]

/-- Witness for C4: two fixed sources, the second fetch timing out. -/
theorem scrape_isolates_failures_witness :
    c4Outcomes.length = c4Sources.length
    ∧ c4Outcomes[1]? = some (Except.error "timeout of 8000ms exceeded")
    ∧ c4Outcomes[0]? = c4OutcomesOk[0]?
    ∧ (scrapeLatestTravelNews c4Sources c4Outcomes).length = c4Sources.length
    ∧ (scrapeLatestTravelNews c4Sources c4Outcomes)[1]? =
        some
          { source := "CNN Travel", articles := [],
            error := some "timeout of 8000ms exceeded", success := false }
    ∧ (scrapeLatestTravelNews c4Sources c4Outcomes)[0]? =
        (scrapeLatestTravelNews c4Sources c4OutcomesOk)[0]? := by
  have h := scrape_isolates_failures c4Sources c4Outcomes c4OutcomesOk 1 0
    "timeout of 8000ms exceeded" (by decide) (by decide) rfl rfl
  exact ⟨by decide, rfl, rfl, h.1, h.2.1, h.2.2⟩

/-- C5: the extractor is total on its input — in particular, when no
strategy output clears the 300-character threshold it degrades to the
terminal fallback, and `success` and `qualityScore` are computed from that
fallback content instead of an error being raised (the embedding is a
total function, so no call can raise). -/
theorem extract_total_fallback (d : ParsedDoc)
    (hshort : ∀ t ∈ d.strategyTexts, strLen t ≤ 300) :
    (extractArticleContent d).fullContent = normalizeText d.bodyFallback
    ∧ (extractArticleContent d).success = successGate (normalizeText d.bodyFallback)
    ∧ (extractArticleContent d).qualityScore
        = qualityScore (resolveTitle d) (normalizeText d.bodyFallback) := by
  have hle : ¬ 300 < strLen (cascade d.strategyTexts) := by
    rcases cascadeGo_mem d.strategyTexts "" with h | h
    · have h' : cascade d.strategyTexts = "" := h
      rw [h', strLen_empty]
      omega
    · exact Nat.not_lt.mpr (hshort _ h)
  have hc : chooseContent d = d.bodyFallback := by
    show (if 300 < strLen (cascade d.strategyTexts) then cascade d.strategyTexts
      else d.bodyFallback) = d.bodyFallback
    rw [if_neg hle]
  refine ⟨?_, ?_, ?_⟩
  · show normalizeText (chooseContent d) = normalizeText d.bodyFallback
    rw [hc]
  · show successGate (normalizeText (chooseContent d)) = _
    rw [hc]
  · show qualityScore (resolveTitle d) (normalizeText (chooseContent d)) = _
    rw [hc]

/-- Witness for C5: a document whose only strategy output is short. -/
theorem extract_total_fallback_witness :
    (∀ t ∈ c5Doc.strategyTexts, strLen t ≤ 300)
    ∧ ((extractArticleContent c5Doc).fullContent = normalizeText c5Doc.bodyFallback
      ∧ (extractArticleContent c5Doc).success = successGate (normalizeText c5Doc.bodyFallback)
      ∧ (extractArticleContent c5Doc).qualityScore
          = qualityScore (resolveTitle c5Doc) (normalizeText c5Doc.bodyFallback)) :=
  ⟨by decide, extract_total_fallback c5Doc (by decide)⟩

/-- C6 as stated is false on the code: `scrapeSource` admits an entry with
no travel keyword in title or URL whenever fewer than 2 entries have been
collected for the source (`isTravel || articles.length < 2`).  Concrete
counterexample: a keyword-free headline is returned. -/
theorem scrapeSource_keyword_counterexample :
    ∃ a, a ∈ scrapeSource "Src" "https://zzz.example/"
        [[{ text := "Zzz qqq www headline", href := "https://zzz.example/a1" }]]
      ∧ isTravelStr a.title a.url = false := by
  decide

/-- C6 amended: every article beyond a source's first two collected entries
matches a travel keyword in its lowercased title or URL; the first two
entries per source are admitted without a keyword match. -/
theorem scrapeSource_keyword_after_two (name base : String)
    (sels : List (List Candidate)) (a : Article)
    (ha : a ∈ (scrapeSource name base sels).drop 2) :
    isTravelStr a.title a.url = true := by
  have h1 : a ∈ (selectorLoop name base sels []).drop 2 := by
    have h0 : a ∈ ((selectorLoop name base sels []).take 3).drop 2 := ha
    rw [List.drop_take] at h0
    exact List.mem_of_mem_take h0
  exact selectorLoop_drop2 sels []
    (fun x hx => absurd hx (List.not_mem_nil x)) a h1

/-- Witness for C6 amended: a page whose third collected entry is
travel-related. -/
theorem scrapeSource_keyword_after_two_witness :
    c6Article ∈ (scrapeSource "S" "https://one.example/" c6Sels).drop 2
    ∧ isTravelStr c6Article.title c6Article.url = true :=
  ⟨by decide,
   scrapeSource_keyword_after_two "S" "https://one.example/" c6Sels c6Article (by decide)⟩

/-- C7: the aggregated `latest_articles` list is ranked by the freshness
heuristic — consecutive `freshness_score` values are non-increasing. -/
theorem rankByFreshness_nonincreasing (results : List FreshResult) :
    List.Chain' (fun a b => b.freshness_score ≤ a.freshness_score)
      (rankByFreshness results) := by
  have h : List.Sorted freshGe (List.insertionSort freshGe
      ((results.filter (fun r => r.success)).flatMap (fun r => r.articles))) :=
    List.sorted_insertionSort freshGe _
  have h2 : List.Pairwise freshGe (rankByFreshness results) :=
    List.Pairwise.sublist (List.take_sublist 20 _) h
  exact h2.chain'

/-- C8 as stated is false on the code: deduplication happens per source
only, so two successful sources carrying the same headline yield an
aggregated list with two entries sharing a title. -/
theorem aggregate_dup_title_counterexample :
    ¬ List.Pairwise (fun a b => a.title ≠ b.title)
        (latestTravelNews3 (scrapeBrowserbase c8Sources c8Outcomes) 20) := by
  decide

/-- C8 amended: within each per-source article list, no two entries share
the same title (the aggregated cross-source list may repeat titles). -/
theorem perSource_dedup_titles (sources : List Source) (outcomes : List FetchOutcome3)
    (r : SourceResult) (hr : r ∈ scrapeBrowserbase sources outcomes) :
    List.Pairwise (fun a b => a.title ≠ b.title) r.articles := by
  obtain ⟨s, o, _, _, rfl⟩ := exists_of_mem_zipWith hr
  cases o with
  | ok sels =>
    have hd : List.Pairwise (fun a b => a.title ≠ b.title)
        (dedupByTitle [] (selectorLoop3 s.name s.url sels [])) := dedup_pairwise _ _
    exact List.Pairwise.sublist (List.take_sublist 6 _) hd
  | error msg => exact List.Pairwise.nil

/-- Witness for C8 amended: a concrete per-source result. -/
theorem perSource_dedup_titles_witness :
    c8Result ∈ scrapeBrowserbase c8Sources c8Outcomes
    ∧ List.Pairwise (fun a b => a.title ≠ b.title) c8Result.articles :=
  ⟨by decide, perSource_dedup_titles c8Sources c8Outcomes c8Result (by decide)⟩

/-- C9: the aggregated list has length at most `max_articles`, each source
contributes at most 5 articles in `scrapeLatestTravelNews`, and
`scrapeSource` returns at most 3 articles per source. -/
theorem aggregation_caps (sources : List Source) (outcomes : List FetchOutcome) (m : Nat)
    (r : SourceResult) (hr : r ∈ scrapeLatestTravelNews sources outcomes)
    (name base : String) (sels : List (List Candidate)) :
    (allArticles1 (scrapeLatestTravelNews sources outcomes) m).length ≤ m
    ∧ r.articles.length ≤ 5
    ∧ (scrapeSource name base sels).length ≤ 3 := by
  refine ⟨List.length_take_le m _, ?_, List.length_take_le 3 _⟩
  obtain ⟨s, o, _, _, rfl⟩ := exists_of_mem_zipWith hr
  cases o with
  | ok elems => exact List.length_take_le 5 _
  | error msg => exact Nat.zero_le 5

/-- Witness for C9: a concrete successful result record. -/
theorem aggregation_caps_witness :
    c9Result ∈ scrapeLatestTravelNews c4Sources c4OutcomesOk
    ∧ ((allArticles1 (scrapeLatestTravelNews c4Sources c4OutcomesOk) 15).length ≤ 15
      ∧ c9Result.articles.length ≤ 5
      ∧ (scrapeSource "S" "https://one.example/" []).length ≤ 3) :=
  ⟨by decide, aggregation_caps c4Sources c4OutcomesOk 15 c9Result (by decide)
    "S" "https://one.example/" []⟩

/-- C10: every article returned by `scrapeSource` has a URL starting with
"http", and it was produced from some matched element by trimming its text
and resolving its href (a root-relative href is resolved against the
source's base URL by `fixLink` before the "http" check admits it). -/
theorem article_urls_absolute (name base : String) (sels : List (List Candidate))
    (a : Article) (ha : a ∈ scrapeSource name base sels) :
    startsWithStr a.url "http" = true
    ∧ ∃ sel ∈ sels, ∃ c ∈ sel, a.title = trimStr c.text ∧ a.url = fixLink base c.href := by
  have h1 : a ∈ selectorLoop name base sels [] := by
    have h0 : a ∈ (selectorLoop name base sels []).take 3 := ha
    exact List.mem_of_mem_take h0
  rcases mem_selectorLoop sels [] h1 with h | ⟨sel, hsel, c, hc, ht, hu, hh⟩
  · exact absurd h (List.not_mem_nil a)
  · exact ⟨hh, sel, hsel, c, hc, ht, hu⟩

/-- Witness for C10: a root-relative travel link resolved to an absolute
URL. -/
theorem article_urls_absolute_witness :
    c10Article ∈ scrapeSource "S" "https://one.example/" c10Sels
    ∧ (startsWithStr c10Article.url "http" = true
      ∧ ∃ sel ∈ c10Sels, ∃ c ∈ sel, c10Article.title = trimStr c.text
          ∧ c10Article.url = fixLink "https://one.example/" c.href) :=
  ⟨by decide,
   article_urls_absolute "S" "https://one.example/" c10Sels c10Article (by decide)⟩

end ContentScraper
